import Mathlib

/-!
Verification of the `uttc-hack-back-onchain` chain event ingestion service.

This file gives a shallow embedding, in Lean 4, of the parts of the Go
source that the verified properties are about:

* the event decoder (`parseLog` and the five `parseItem…` functions in
  `gateway/contract/gateway.go`, in its most capable iteration, which also
  checks the emitting contract address);
* the backfill-range resolution of `ScanPastEvents`;
* the transaction verifier `VerifyTransaction`;
* the payment check `CheckPaymentStatus` (`gateway/payment`);
* the backend notifier `notifyBackend` with its bounded retry loop;
* the reconnect backoff of `startRealtimeListener`;
* the polling fallback loop `pollEvents`;
* the event-kind → endpoint/payload mapping of `handleEvent`;
* the `int64` conversion of the item id in `GetItem`.

Machine integers (`uint64`, Ethereum's 256-bit words, 160-bit addresses)
are modelled as `Nat`, with explicit `% 2 ^ w` at the points where the Go
code truncates.  ABI decoding of the opaque `data` payload is modelled as
an optional structured record per event kind: `none` stands for
an `UnpackIntoMap` error, `some` for a successful unpack that yields every
non-indexed field (which is what go-ethereum's unpacker does).
-/

namespace Onchain

/-- The five event kinds of `model.EventType` (`model/model.go`). -/
inductive EventType where
  | itemListed
  | itemPurchased
  | itemUpdated
  | itemCancelled
  | receiptConfirmed
deriving DecidableEq, Repr

/-- `model.ContractEvent` (`model/model.go`).  Go zero values are the
defaults: `0` for `uint64` fields, `""` for strings.  `Price` is a
`*big.Int` in Go and `nil` until a successful data unpack sets it, hence
`Option Nat` here.  Addresses (`Seller`, `Buyer`) are kept as their
160-bit numeric value. -/
structure ContractEvent where
  type : EventType
  txHash : String
  blockNo : Nat
  itemId : Nat := 0
  tokenId : Nat := 0
  title : String := ""
  price : Option Nat := none
  explanation : String := ""
  imageUrl : String := ""
  uid : String := ""
  category : String := ""
  seller : Nat := 0
  buyer : Nat := 0
  createdAt : Nat := 0
  updatedAt : Nat := 0
deriving DecidableEq, Repr

/-- Non-indexed fields of the `ItemListed` event per the ABI in
`gateway/contract/abi.go`. -/
structure ItemListedData where
  title : String
  price : Nat
  explanation : String
  imageUrl : String
  uid : String
  createdAt : Nat
  category : String
deriving DecidableEq, Repr

/-- Non-indexed fields of `ItemPurchased` (`price`, `timestamp`,
`tokenId`); the Go parser reads only `price` and `tokenId`. -/
structure ItemPurchasedData where
  price : Nat
  timestamp : Nat
  tokenId : Nat
deriving DecidableEq, Repr

/-- Non-indexed fields of `ItemUpdated`. -/
structure ItemUpdatedData where
  title : String
  price : Nat
  explanation : String
  imageUrl : String
  category : String
  updatedAt : Nat
deriving DecidableEq, Repr

/-- Non-indexed fields of `ReceiptConfirmed` (`price`, `timestamp`); the
Go parser reads only `price`. -/
structure ReceiptConfirmedData where
  price : Nat
  timestamp : Nat
deriving DecidableEq, Repr

/-- The opaque ABI-encoded `data` payload of a raw log, seen through
go-ethereum's `UnpackIntoMap`: for each event kind, either the unpack
fails (`none`) or it yields all of that kind's non-indexed fields. -/
structure LogData where
  itemListed : Option ItemListedData := none
  itemPurchased : Option ItemPurchasedData := none
  itemUpdated : Option ItemUpdatedData := none
  receiptConfirmed : Option ReceiptConfirmedData := none
deriving DecidableEq, Repr

/-- A raw log entry (`types.Log`): emitting address, topic list (topic 0
is the event signature), data payload, transaction hash, block number. -/
structure Log where
  address : Nat
  topics : List Nat
  data : LogData
  txHash : String
  blockNumber : Nat
deriving DecidableEq, Repr

/-- Stand-in for the keccak id `contractABI.Events["ItemListed"].ID` of
`ItemListed(uint256,uint256,address,string,uint256,string,string,string,uint256,string)`.
Only the distinctness of the five signature words and equality dispatch on
topic 0 matter to the decoder, not the concrete hash values. -/
def itemListedSig : Nat := 0xa1

/-- Stand-in for the keccak id of `ItemPurchased(…)`. -/
def itemPurchasedSig : Nat := 0xa2

/-- Stand-in for the keccak id of `ItemUpdated(…)`. -/
def itemUpdatedSig : Nat := 0xa3

/-- Stand-in for the keccak id of `ItemCancelled(…)`. -/
def itemCancelledSig : Nat := 0xa4

/-- Stand-in for the keccak id of `ReceiptConfirmed(…)`. -/
def receiptConfirmedSig : Nat := 0xa5

/-- The gateway state relevant to decoding: the configured marketplace
contract address (`FrimaContractGateway.contractAddress`). -/
structure Gateway where
  contractAddress : Nat
deriving DecidableEq, Repr

/-- Topic access `vLog.Topics[i]`; only used behind the length guards the
Go code performs. -/
def topicVal (vLog : Log) (i : Nat) : Nat := vLog.topics.getD i 0

/-- `new(big.Int).SetBytes(topic.Bytes()).Uint64()`: the low 64 bits of a
256-bit topic word. -/
def topicUint64 (vLog : Log) (i : Nat) : Nat := topicVal vLog i % 2 ^ 64

/-- `common.HexToAddress(topic.Hex())`: truncation of a 256-bit topic word
to a 160-bit address. -/
def addrOfTopic (t : Nat) : Nat := t % 2 ^ 160

/-- `common.Address.Hex()` up to EIP-55 letter casing: hexadecimal
rendering of the 160-bit address value. -/
def addressHex (a : Nat) : String :=
  "0x" ++ String.mk (Nat.toDigits 16 (a % 2 ^ 160))

/-- `parseItemListed` (`gateway/contract/gateway.go:285`).  Indexed
topics: `itemId`, `tokenId`, `seller` after topic 0 — read only when at
least 4 topics are present; otherwise the fields silently keep their zero
values.  A failing data unpack also returns the partially-populated
event. -/
def parseItemListed (vLog : Log) : ContractEvent :=
  let base : ContractEvent :=
    { type := EventType.itemListed, txHash := vLog.txHash, blockNo := vLog.blockNumber }
  let ev :=
    if 4 ≤ vLog.topics.length then
      { base with itemId := topicUint64 vLog 1, tokenId := topicUint64 vLog 2,
                  seller := addrOfTopic (topicVal vLog 3) }
    else base
  match vLog.data.itemListed with
  | none => ev
  | some d =>
    { ev with title := d.title, price := some d.price, explanation := d.explanation,
              imageUrl := d.imageUrl, uid := d.uid, createdAt := d.createdAt % 2 ^ 64,
              category := d.category }

/-- `parseItemPurchased`: indexed topics `itemId`, `buyer` (needs ≥ 3
topics); data fields `price`, `tokenId`. -/
def parseItemPurchased (vLog : Log) : ContractEvent :=
  let base : ContractEvent :=
    { type := EventType.itemPurchased, txHash := vLog.txHash, blockNo := vLog.blockNumber }
  let ev :=
    if 3 ≤ vLog.topics.length then
      { base with itemId := topicUint64 vLog 1, buyer := addrOfTopic (topicVal vLog 2) }
    else base
  match vLog.data.itemPurchased with
  | none => ev
  | some d => { ev with price := some d.price, tokenId := d.tokenId % 2 ^ 64 }

/-- `parseItemUpdated`: indexed topic `itemId` (needs ≥ 2 topics); data
fields `title`, `price`, `explanation`, `imageUrl`, `category`,
`updatedAt`. -/
def parseItemUpdated (vLog : Log) : ContractEvent :=
  let base : ContractEvent :=
    { type := EventType.itemUpdated, txHash := vLog.txHash, blockNo := vLog.blockNumber }
  let ev :=
    if 2 ≤ vLog.topics.length then { base with itemId := topicUint64 vLog 1 }
    else base
  match vLog.data.itemUpdated with
  | none => ev
  | some d =>
    { ev with title := d.title, price := some d.price, explanation := d.explanation,
              imageUrl := d.imageUrl, category := d.category,
              updatedAt := d.updatedAt % 2 ^ 64 }

/-- `parseItemCancelled`: indexed topics `itemId`, `seller` (needs ≥ 3
topics); no data unpack. -/
def parseItemCancelled (vLog : Log) : ContractEvent :=
  let base : ContractEvent :=
    { type := EventType.itemCancelled, txHash := vLog.txHash, blockNo := vLog.blockNumber }
  if 3 ≤ vLog.topics.length then
    { base with itemId := topicUint64 vLog 1, seller := addrOfTopic (topicVal vLog 2) }
  else base

/-- `parseReceiptConfirmed`: indexed topics `itemId`, `buyer`, `seller`
(needs ≥ 4 topics); data field `price`. -/
def parseReceiptConfirmed (vLog : Log) : ContractEvent :=
  let base : ContractEvent :=
    { type := EventType.receiptConfirmed, txHash := vLog.txHash, blockNo := vLog.blockNumber }
  let ev :=
    if 4 ≤ vLog.topics.length then
      { base with itemId := topicUint64 vLog 1, buyer := addrOfTopic (topicVal vLog 2),
                  seller := addrOfTopic (topicVal vLog 3) }
    else base
  match vLog.data.receiptConfirmed with
  | none => ev
  | some d => { ev with price := some d.price }

/-- `parseLog` in its most capable iteration (the address-filtering
variant of the gateway, appended in `main.go`, lines 750–787): reject a
log with no topics, reject a log whose emitting address differs from the
configured contract address, then dispatch on topic 0 against the five
known signatures; an unknown signature is "no event". -/
def parseLog (g : Gateway) (vLog : Log) : Option ContractEvent :=
  if vLog.topics.length = 0 then none
  else if vLog.address ≠ g.contractAddress then none
  else
    let eventSig := topicVal vLog 0
    if eventSig = itemListedSig then some (parseItemListed vLog)
    else if eventSig = itemPurchasedSig then some (parseItemPurchased vLog)
    else if eventSig = itemUpdatedSig then some (parseItemUpdated vLog)
    else if eventSig = itemCancelledSig then some (parseItemCancelled vLog)
    else if eventSig = receiptConfirmedSig then some (parseReceiptConfirmed vLog)
    else none

/-- `ScanPastEvents` from-block resolution
(`gateway/contract/gateway.go:196-202`): a caller-supplied `0` is replaced
by `head − 1000` when the head exceeds the 1000-block window, and stays
`0` otherwise; a nonzero `fromBlock` is used as given. -/
def resolveFromBlock (fromBlock currentBlock : Nat) : Nat :=
  if fromBlock = 0 then
    (if 1000 < currentBlock then currentBlock - 1000 else fromBlock)
  else fromBlock

/-- `ScanPastEvents` to-block resolution
(`gateway/contract/gateway.go:204-207`): the chain head unless the caller
supplied an explicit `toBlock`. -/
def resolveToBlock (toBlock : Option Nat) (currentBlock : Nat) : Nat :=
  match toBlock with
  | none => currentBlock
  | some t => t

/-- An Ethereum transaction as the verifier reads it: its attached value
in wei and its direct target (`tx.To()`, `none` for contract-creation
transactions). -/
structure EthTx where
  value : Nat
  toAddr : Option Nat
deriving DecidableEq, Repr

/-- A transaction receipt as the verifier reads it: block number, gas
used, and the on-chain status word (`1` = successful). -/
structure Receipt where
  blockNumber : Nat
  gasUsed : Nat
  status : Nat
deriving DecidableEq, Repr

/-- `types.ReceiptStatusSuccessful`. -/
def receiptStatusSuccessful : Nat := 1

/-- Outcome of `client.TransactionByHash`: either an error ("not found")
or the transaction together with its pending flag. -/
inductive TxLookup where
  | notFound
  | found (tx : EthTx) (isPending : Bool)
deriving DecidableEq, Repr

/-- `model.TxVerification` (`model/model.go`).  Go zero values are the
defaults, so a result built without a receipt has `blockNumber = 0` and
`gasUsed = 0`. -/
structure TxVerification where
  txHash : String
  status : String
  blockNumber : Nat := 0
  gasUsed : Nat := 0
  success : Bool := false
  isContractCall : Bool := false
deriving DecidableEq, Repr

/-- `VerifyTransaction` (`gateway/contract/gateway.go:455-498`).  The node
is modelled by the outcome of its two RPCs: `lookup` for
`TransactionByHash` and `receiptLookup` for `TransactionReceipt` (`none`
standing for a receipt-fetch error).  `hashVal` is the numeric value of
the 32-byte parsed hash; a zero hash is rejected before any lookup. -/
def verifyTransaction (g : Gateway) (txHash : String) (hashVal : Nat)
    (lookup : TxLookup) (receiptLookup : Option Receipt) : Except String TxVerification :=
  if hashVal = 0 then .error "invalid transaction hash format"
  else
    match lookup with
    | .notFound => .error "transaction not found"
    | .found tx isPending =>
      if isPending then
        .ok { txHash := txHash, status := "pending", success := false }
      else
        match receiptLookup with
        | none => .error "failed to get transaction receipt"
        | some receipt =>
          .ok { txHash := txHash,
                status := if receipt.status = receiptStatusSuccessful then "success" else "failed",
                blockNumber := receipt.blockNumber,
                gasUsed := receipt.gasUsed,
                success := receipt.status = receiptStatusSuccessful,
                isContractCall := tx.toAddr = some g.contractAddress }

/-- `model.OrderStatus`. -/
inductive OrderStatus where
  | statusPending
  | statusPaid
  | statusError
deriving DecidableEq, Repr

/-- `CheckPaymentStatus` (`gateway/payment`, `EthGateway`): verifies an
ETH payment transaction against the expected collection address and
amount, returning the Go pair (status, error message). -/
def checkPaymentStatus (hashVal : Nat) (expectedAddr : Nat) (expectedWei : Nat)
    (lookup : TxLookup) (receiptLookup : Option Receipt) : OrderStatus × Option String :=
  if hashVal = 0 then (.statusError, some "invalid transaction hash format")
  else
    match lookup with
    | .notFound => (.statusError, some "transaction not found or node error")
    | .found tx isPending =>
      if isPending then (.statusPending, some "transaction is still pending")
      else
        match receiptLookup with
        | none => (.statusError, some "failed to get transaction receipt")
        | some receipt =>
          if receipt.status ≠ receiptStatusSuccessful then
            (.statusError, some "transaction failed on chain (reverted)")
          else if tx.value < expectedWei then
            (.statusError, some "insufficient payment amount")
          else
            match tx.toAddr with
            | none => (.statusError, some "transaction is not a transfer to a valid address")
            | some a =>
              if a ≠ expectedAddr then
                (.statusError, some "transaction sent to wrong recipient address")
              else (.statusPaid, none)

/-- Outcome of one HTTP POST attempt as `notifyBackend` observes it:
either a transport error from `client.Post` or a response status code. -/
inductive HttpOutcome where
  | transportError
  | response (status : Nat)
deriving DecidableEq, Repr

/-- Result of the whole notification attempt sequence. -/
inductive NotifyResult where
  | success
  | permanentFailure
  | exhausted
deriving DecidableEq, Repr

/-- `maxRetries` of `notifyBackend`. -/
def maxRetries : Nat := 3

/-- The retry loop body of `notifyBackend` (the retrying iteration of the
contract usecase, `main.go` appended source lines 343-402): attempt `i`
observes `responses i`; a transport error is retried, a 2xx response
returns success, a 4xx response returns without further attempts, any
other status (5xx included) is retried; the loop runs while `remaining`
attempts are left.  The second component counts HTTP attempts made. -/
def notifyRun (responses : Nat → HttpOutcome) : Nat → Nat → NotifyResult × Nat
  | i, 0 => (.exhausted, i)
  | i, remaining + 1 =>
    match responses i with
    | .transportError => notifyRun responses (i + 1) remaining
    | .response status =>
      if 200 ≤ status ∧ status < 300 then (.success, i + 1)
      else if 400 ≤ status ∧ status < 500 then (.permanentFailure, i + 1)
      else notifyRun responses (i + 1) remaining

/-- `notifyBackend`: up to `maxRetries = 3` attempts starting at attempt
index 0. -/
def notifyBackend (responses : Nat → HttpOutcome) : NotifyResult × Nat :=
  notifyRun responses 0 maxRetries

/-- `retryDelay := 5 * time.Second` — the backoff floor of
`startRealtimeListener`, in seconds. -/
def floorDelay : Nat := 5

/-- `maxRetryDelay := 60 * time.Second` — the backoff ceiling, in
seconds. -/
def ceilingDelay : Nat := 60

/-- The source's own `min` helper on durations. -/
def minDur (a b : Nat) : Nat := if a < b then a else b

/-- `retryDelay = min(retryDelay*2, maxRetryDelay)`. -/
def nextRetryDelay (d : Nat) : Nat := minDur (d * 2) ceilingDelay

/-- The observable events of the supervised reconnect loop of
`startRealtimeListener`: a failed `SubscribeEvents` call, a successful
subscribe (a connection, not necessarily an event), and the termination
(closure) of a live event channel. -/
inductive ListenerEvent where
  | subscribeFailed
  | subscribeOk
  | streamClosed
deriving DecidableEq, Repr

/-- One transition of the reconnect loop on the backoff state
(`retryDelay`).  Returns the new stored delay and, when the loop waits
before retrying, the delay it waits (`startRealtimeListener`: both the
subscribe-failure branch and the channel-closed branch wait the current
`retryDelay` and then double it with the cap; a successful subscribe
resets the delay to the floor and waits nothing). -/
def listenerStep (d : Nat) : ListenerEvent → Nat × Option Nat
  | .subscribeFailed => (nextRetryDelay d, some d)
  | .subscribeOk => (floorDelay, none)
  | .streamClosed => (nextRetryDelay d, some d)

/-- The backoff state after a sequence of loop events, starting from
delay `d`. -/
def runListener (d : Nat) (evs : List ListenerEvent) : Nat :=
  evs.foldl (fun s e => (listenerStep s e).1) d

/-- Input to one tick of the polling fallback loop `pollEvents`
(`main.go` appended gateway, lines 623-692): the result of the
latest-header fetch (`none` = error) and, if a range is fetched, the
result of `FilterLogs` (`none` = error). -/
structure TickInput where
  headerResult : Option Nat
  logsResult : Option (List Log)
deriving Repr

/-- What one polling tick did. -/
inductive TickOutcome where
  | terminated
  | idle
  | fetchFailed (range : Nat × Nat)
  | fetched (range : Nat × Nat) (logs : List Log)
deriving Repr

/-- One tick of `pollEvents` on the `lastProcessedBlock` cursor: a header
error closes the channel and terminates the loop; a head not beyond the
cursor is skipped; otherwise the inclusive range `[cursor+1, head]` is
fetched, and the cursor advances to `head` whether or not the log fetch
succeeded. -/
def pollTick (last : Nat) (inp : TickInput) : Nat × TickOutcome :=
  match inp.headerResult with
  | none => (last, .terminated)
  | some currentBlock =>
    if currentBlock ≤ last then (last, .idle)
    else
      match inp.logsResult with
      | none => (currentBlock, .fetchFailed (last + 1, currentBlock))
      | some logs => (currentBlock, .fetched (last + 1, currentBlock) logs)

/-- Run the polling loop over a list of tick inputs, collecting the block
ranges it fetched (in order) and the final cursor; a header error stops
the loop as in the source. -/
def pollRun (last : Nat) : List TickInput → List (Nat × Nat) × Nat
  | [] => ([], last)
  | inp :: rest =>
    match pollTick last inp with
    | (last2, .terminated) => ([], last2)
    | (last2, .idle) => pollRun last2 rest
    | (last2, .fetchFailed r) =>
      let tail := pollRun last2 rest
      (r :: tail.1, tail.2)
    | (last2, .fetched r _) =>
      let tail := pollRun last2 rest
      (r :: tail.1, tail.2)

/-- A JSON scalar as it appears in the notification payloads: Go
marshals strings and unsigned integers. -/
inductive JsonVal where
  | str (s : String)
  | num (n : Nat)
deriving DecidableEq, Repr

/-- `(*big.Int).String()` as the payloads call it on `event.Price`: the
decimal rendering of the value, or Go's `"<nil>"` for a nil pointer. -/
def priceString : Option Nat → String
  | none => "<nil>"
  | some n => Nat.repr n

/-- The event-kind → endpoint/payload mapping of `handleEvent` (identical
in every iteration of the contract usecase).  Payloads are modelled as
association lists in source order; `EventType` has exactly the five known
constructors, so the Go `default` branch (return without notifying) is
unrepresentable here. -/
def handleEventRoute (e : ContractEvent) : String × List (String × JsonVal) :=
  match e.type with
  | .itemListed =>
    ("/api/v1/blockchain/item-listed",
      [("chain_item_id", .num e.itemId), ("token_id", .num e.tokenId),
       ("title", .str e.title), ("price_wei", .str (priceString e.price)),
       ("explanation", .str e.explanation), ("image_url", .str e.imageUrl),
       ("uid", .str e.uid), ("category", .str e.category),
       ("seller", .str (addressHex e.seller)), ("created_at", .num e.createdAt),
       ("tx_hash", .str e.txHash)])
  | .itemPurchased =>
    ("/api/v1/blockchain/item-purchased",
      [("chain_item_id", .num e.itemId), ("buyer", .str (addressHex e.buyer)),
       ("price_wei", .str (priceString e.price)), ("token_id", .num e.tokenId),
       ("tx_hash", .str e.txHash)])
  | .itemUpdated =>
    ("/api/v1/blockchain/item-updated",
      [("chain_item_id", .num e.itemId), ("title", .str e.title),
       ("price_wei", .str (priceString e.price)), ("explanation", .str e.explanation),
       ("image_url", .str e.imageUrl), ("category", .str e.category),
       ("updated_at", .num e.updatedAt), ("tx_hash", .str e.txHash)])
  | .itemCancelled =>
    ("/api/v1/blockchain/item-cancelled",
      [("chain_item_id", .num e.itemId), ("seller", .str (addressHex e.seller)),
       ("tx_hash", .str e.txHash)])
  | .receiptConfirmed =>
    ("/api/v1/blockchain/receipt-confirmed",
      [("chain_item_id", .num e.itemId), ("buyer", .str (addressHex e.buyer)),
       ("seller", .str (addressHex e.seller)), ("price_wei", .str (priceString e.price)),
       ("tx_hash", .str e.txHash)])

/-- The Go conversion `int64(itemId)` applied to a `uint64` item id:
two's-complement reinterpretation of the 64-bit word. -/
def toInt64 (n : Nat) : Int :=
  if n < 2 ^ 63 then (n : Int) else (n : Int) - 2 ^ 64

/-- The argument `GetItem` packs into the `getItem` contract call:
`big.NewInt(int64(itemId))` (`gateway/contract/gateway.go:80`). -/
def getItemCallArg (itemId : Nat) : Int := toInt64 itemId

/-- Attempt outcome is a 2xx response. -/
def is2xx : HttpOutcome → Bool
  | .response s => decide (200 ≤ s) && decide (s < 300)
  | .transportError => false

/-- Attempt outcome is a 4xx response. -/
def is4xx : HttpOutcome → Bool
  | .response s => decide (400 ≤ s) && decide (s < 500)
  | .transportError => false

/-- Attempt outcome that `notifyBackend` retries: a transport error or
any status outside the 2xx and 4xx ranges (5xx, 1xx, 3xx). -/
def isRetryable : HttpOutcome → Bool
  | .transportError => true
  | .response s => !(decide (200 ≤ s) && decide (s < 300)) && !(decide (400 ≤ s) && decide (s < 500))

lemma nextRetryDelay_minDur (a : Nat) :
    nextRetryDelay (minDur a ceilingDelay) = minDur (a * 2) ceilingDelay := by
  unfold nextRetryDelay minDur ceilingDelay
  split_ifs <;> omega

lemma runListener_cons (d : Nat) (e : ListenerEvent) (evs : List ListenerEvent) :
    runListener d (e :: evs) = runListener (listenerStep d e).1 evs := rfl

lemma runListener_replicate_failed (n : Nat) : ∀ a : Nat,
    runListener (minDur a ceilingDelay) (List.replicate n ListenerEvent.subscribeFailed)
      = minDur (a * 2 ^ n) ceilingDelay := by
  induction n with
  | zero => intro a; simp [runListener]
  | succ n ih =>
    intro a
    rw [List.replicate_succ, runListener_cons]
    show runListener (nextRetryDelay (minDur a ceilingDelay)) _ = _
    rw [nextRetryDelay_minDur, ih (a * 2)]
    congr 1
    ring

/-- C1.  Modelling one pass of `startRealtimeListener`'s supervised loop
as a transition on the stored `retryDelay`: starting at the 5-second
floor, after `n` consecutive reconnect failures the backoff delay equals
`min (floor * 2 ^ n) ceiling`; one successful subscribe resets the delay
to the floor immediately (waiting nothing); and whenever the live event
channel terminates the loop waits the current backoff delay (and doubles
the stored delay, capped) before retrying the subscription. -/
theorem startRealtimeListener_backoff (n : Nat) :
    runListener floorDelay (List.replicate n ListenerEvent.subscribeFailed)
      = minDur (floorDelay * 2 ^ n) ceilingDelay
    ∧ (∀ d, listenerStep d ListenerEvent.subscribeOk = (floorDelay, none))
    ∧ (∀ d, listenerStep d ListenerEvent.streamClosed = (nextRetryDelay d, some d)) := by
  refine ⟨?_, fun d => rfl, fun d => rfl⟩
  have h5 : minDur 5 ceilingDelay = floorDelay := by decide
  have h := runListener_replicate_failed n 5
  rw [h5] at h
  exact h

/-- C6.  `ScanPastEvents` called with `fromBlock = 0` starts the scan at
`head − 1000` (truncated `Nat` subtraction, hence clamped to `0` whenever
the head does not exceed the 1000-block window), and an unspecified
`toBlock` resolves to the chain's current head. -/
theorem scanPastEvents_range_resolution (currentBlock : Nat) :
    resolveFromBlock 0 currentBlock = currentBlock - 1000
    ∧ (currentBlock ≤ 1000 → resolveFromBlock 0 currentBlock = 0)
    ∧ resolveToBlock none currentBlock = currentBlock := by
  refine ⟨?_, fun h => ?_, rfl⟩ <;>
    · unfold resolveFromBlock
      split_ifs <;> omega

/-- C6 witness: the clamped, the unclamped and the head-resolution cases
at concrete block numbers. -/
theorem scanPastEvents_range_resolution_witness :
    resolveFromBlock 0 500 = 0
    ∧ resolveFromBlock 0 5000 = 4000
    ∧ resolveToBlock none 5000 = 5000 :=
  ⟨(scanPastEvents_range_resolution 500).2.1 (by norm_num),
   (scanPastEvents_range_resolution 5000).1,
   (scanPastEvents_range_resolution 5000).2.2⟩

/-- C10.  `GetItem` converts the requested `uint64` item id through
`int64(itemId)` before packing it: ids below `2 ^ 63` are preserved, but
any id at or above `2 ^ 63` becomes the negative two's-complement value
`itemId − 2 ^ 64`, which differs from the requested id, so the packed
call argument no longer queries the requested item. -/
theorem getItem_callArg_int64 (itemId : Nat) :
    (itemId < 2 ^ 63 → getItemCallArg itemId = (itemId : Int))
    ∧ (2 ^ 63 ≤ itemId → itemId < 2 ^ 64 →
        getItemCallArg itemId < 0
        ∧ getItemCallArg itemId = (itemId : Int) - 2 ^ 64
        ∧ getItemCallArg itemId ≠ (itemId : Int)) := by
  constructor
  · intro h
    unfold getItemCallArg toInt64
    rw [if_pos h]
  · intro h1 h2
    unfold getItemCallArg toInt64
    rw [if_neg (by omega)]
    refine ⟨?_, rfl, ?_⟩ <;> omega

/-- C10 witness: id 7 is preserved; id `2 ^ 63` is sent as a negative
value distinct from itself. -/
theorem getItem_callArg_int64_witness :
    getItemCallArg 7 = (7 : Int)
    ∧ getItemCallArg (2 ^ 63) < 0
    ∧ getItemCallArg (2 ^ 63) ≠ ((2 ^ 63 : Nat) : Int) :=
  ⟨(getItem_callArg_int64 7).1 (by norm_num),
   ((getItem_callArg_int64 (2 ^ 63)).2 (le_refl _) (by norm_num)).1,
   ((getItem_callArg_int64 (2 ^ 63)).2 (le_refl _) (by norm_num)).2.2⟩

/-- C4.  The address-filtering `parseLog` yields no event for any log
whose emitting contract address differs from the configured marketplace
address, regardless of topic 0 (the empty-topics guard also yields
`none`, so the conclusion is unconditional on the topics). -/
theorem parseLog_address_mismatch (g : Gateway) (vLog : Log)
    (h : vLog.address ≠ g.contractAddress) : parseLog g vLog = none := by
  unfold parseLog
  by_cases h0 : vLog.topics.length = 0
  · simp [h0]
  · simp [h0, h]

/-- C4 witness: a log carrying the known `ItemListed` signature in topic
0 but emitted by address `0x1` is rejected by a gateway configured for
address `0x2`. -/
theorem parseLog_address_mismatch_witness :
    parseLog { contractAddress := 0x2 }
      { address := 0x1, topics := [itemListedSig], data := {}, txHash := "0xaa",
        blockNumber := 1 } = none :=
  parseLog_address_mismatch _ _ (by decide)

/-- C2 (code bug).  A log emitted by the configured address whose topic 0
is the `ItemListed` signature but which carries none of the three
required indexed topics (`itemId`, `tokenId`, `seller`) is NOT rejected:
`parseLog` returns a partially-populated `ItemListed` event whose item
id, token id, seller and every data field silently keep their zero
values — the decode failure the specification requires never happens. -/
theorem parseLog_missing_topics_partial_event :
    parseLog { contractAddress := 0x77 }
      { address := 0x77, topics := [itemListedSig], data := {}, txHash := "0xbb",
        blockNumber := 5 }
      = some { type := EventType.itemListed, txHash := "0xbb", blockNo := 5 } := by
  rfl

lemma notifyRun_succ (responses : Nat → HttpOutcome) (i rem : Nat) :
    notifyRun responses i (rem + 1)
      = match responses i with
        | .transportError => notifyRun responses (i + 1) rem
        | .response status =>
          if 200 ≤ status ∧ status < 300 then (NotifyResult.success, i + 1)
          else if 400 ≤ status ∧ status < 500 then (NotifyResult.permanentFailure, i + 1)
          else notifyRun responses (i + 1) rem := rfl

lemma notifyRun_2xx (responses : Nat → HttpOutcome) (i rem : Nat)
    (h : is2xx (responses i) = true) :
    notifyRun responses i (rem + 1) = (NotifyResult.success, i + 1) := by
  rw [notifyRun_succ]
  cases hr : responses i with
  | transportError => rw [hr] at h; simp [is2xx] at h
  | response s =>
    rw [hr] at h
    simp only [is2xx, Bool.and_eq_true, decide_eq_true_eq] at h
    simp [h]

lemma notifyRun_4xx (responses : Nat → HttpOutcome) (i rem : Nat)
    (h : is4xx (responses i) = true) :
    notifyRun responses i (rem + 1) = (NotifyResult.permanentFailure, i + 1) := by
  rw [notifyRun_succ]
  cases hr : responses i with
  | transportError => rw [hr] at h; simp [is4xx] at h
  | response s =>
    rw [hr] at h
    simp only [is4xx, Bool.and_eq_true, decide_eq_true_eq] at h
    have h2 : ¬(200 ≤ s ∧ s < 300) := by omega
    simp [h, h2]

lemma notifyRun_retryable (responses : Nat → HttpOutcome) (i rem : Nat)
    (h : isRetryable (responses i) = true) :
    notifyRun responses i (rem + 1) = notifyRun responses (i + 1) rem := by
  rw [notifyRun_succ]
  cases hr : responses i with
  | transportError => rfl
  | response s =>
    rw [hr] at h
    simp only [isRetryable, Bool.and_eq_true, Bool.not_eq_true', Bool.and_eq_false_iff,
      decide_eq_false_iff_not, Bool.not_eq_true, decide_eq_true_eq] at h
    have h2 : ¬(200 ≤ s ∧ s < 300) := by omega
    have h4 : ¬(400 ≤ s ∧ s < 500) := by omega
    simp [h2, h4]

/-- C3.  The `notifyBackend` retry loop, with the responses of the
successive HTTP attempts given as `responses`: the first 2xx response at
attempt `k` (after only retryable outcomes) ends the sequence with
success after exactly `k + 1` attempts; a 4xx response at attempt `k`
(after only retryable outcomes) ends the sequence as a permanent failure
with no further attempts; and when every attempt meets a 5xx response or
a transport error, exactly `maxRetries = 3` attempts are made before a
terminal failure is returned. -/
theorem notifyBackend_attempt_policy (responses : Nat → HttpOutcome) :
    (∀ k, k < maxRetries → (∀ i, i < k → isRetryable (responses i) = true) →
        is2xx (responses k) = true →
        notifyBackend responses = (NotifyResult.success, k + 1))
    ∧ (∀ k, k < maxRetries → (∀ i, i < k → isRetryable (responses i) = true) →
        is4xx (responses k) = true →
        notifyBackend responses = (NotifyResult.permanentFailure, k + 1))
    ∧ ((∀ i, i < maxRetries → isRetryable (responses i) = true) →
        notifyBackend responses = (NotifyResult.exhausted, maxRetries)) := by
  refine ⟨?_, ?_, ?_⟩
  · intro k hk hpre h2
    have hk3 : k < 3 := hk
    show notifyRun responses 0 3 = _
    interval_cases k
    · exact notifyRun_2xx responses 0 2 h2
    · rw [notifyRun_retryable responses 0 2 (hpre 0 (by omega))]
      exact notifyRun_2xx responses 1 1 h2
    · rw [notifyRun_retryable responses 0 2 (hpre 0 (by omega)),
        notifyRun_retryable responses 1 1 (hpre 1 (by omega))]
      exact notifyRun_2xx responses 2 0 h2
  · intro k hk hpre h4
    have hk3 : k < 3 := hk
    show notifyRun responses 0 3 = _
    interval_cases k
    · exact notifyRun_4xx responses 0 2 h4
    · rw [notifyRun_retryable responses 0 2 (hpre 0 (by omega))]
      exact notifyRun_4xx responses 1 1 h4
    · rw [notifyRun_retryable responses 0 2 (hpre 0 (by omega)),
        notifyRun_retryable responses 1 1 (hpre 1 (by omega))]
      exact notifyRun_4xx responses 2 0 h4
  · intro hall
    show notifyRun responses 0 3 = _
    rw [notifyRun_retryable responses 0 2 (hall 0 (by decide)),
      notifyRun_retryable responses 1 1 (hall 1 (by decide)),
      notifyRun_retryable responses 2 0 (hall 2 (by decide))]
    rfl

/-- C3 witness: an all-503 backend costs exactly 3 attempts and fails
terminally; an immediate 404 costs exactly one attempt and fails
permanently; a 500 followed by a 200 succeeds at the second attempt. -/
theorem notifyBackend_attempt_policy_witness :
    notifyBackend (fun _ => HttpOutcome.response 503) = (NotifyResult.exhausted, 3)
    ∧ notifyBackend (fun _ => HttpOutcome.response 404) = (NotifyResult.permanentFailure, 1)
    ∧ notifyBackend (fun i => if i = 0 then HttpOutcome.response 500 else HttpOutcome.response 200)
        = (NotifyResult.success, 2) := by
  refine ⟨?_, ?_, ?_⟩
  · exact (notifyBackend_attempt_policy _).2.2 (fun i _ => by decide)
  · exact (notifyBackend_attempt_policy _).2.1 0 (by decide) (fun i hi => by omega) (by decide)
  · refine (notifyBackend_attempt_policy _).1 1 (by decide) ?_ (by decide)
    intro i hi
    have hi0 : i = 0 := by omega
    subst hi0
    decide

/-- C5.  `CheckPaymentStatus` on a mined, non-reverted transaction with
an expected recipient and amount: a value below the expected amount is an
insufficient-amount failure even though the transaction succeeded
on-chain; an absent direct target is a no-recipient failure; a target
other than the expected recipient is a wrong-recipient failure; and only
a value at least the expected amount sent directly to the expected
recipient marks the order paid. -/
theorem checkPaymentStatus_verdicts (hashVal expectedAddr expectedWei : Nat)
    (tx : EthTx) (receipt : Receipt)
    (hHash : hashVal ≠ 0) (hStatus : receipt.status = receiptStatusSuccessful) :
    (tx.value < expectedWei →
      checkPaymentStatus hashVal expectedAddr expectedWei (.found tx false) (some receipt)
        = (OrderStatus.statusError, some "insufficient payment amount"))
    ∧ (expectedWei ≤ tx.value → tx.toAddr = none →
        checkPaymentStatus hashVal expectedAddr expectedWei (.found tx false) (some receipt)
          = (OrderStatus.statusError, some "transaction is not a transfer to a valid address"))
    ∧ (∀ a, expectedWei ≤ tx.value → tx.toAddr = some a → a ≠ expectedAddr →
        checkPaymentStatus hashVal expectedAddr expectedWei (.found tx false) (some receipt)
          = (OrderStatus.statusError, some "transaction sent to wrong recipient address"))
    ∧ (expectedWei ≤ tx.value → tx.toAddr = some expectedAddr →
        checkPaymentStatus hashVal expectedAddr expectedWei (.found tx false) (some receipt)
          = (OrderStatus.statusPaid, none)) := by
  refine ⟨?_, ?_, ?_, ?_⟩
  · intro hlt
    simp [checkPaymentStatus, hHash, hStatus, hlt]
  · intro hge hnone
    simp [checkPaymentStatus, hHash, hStatus, Nat.not_lt.mpr hge, hnone]
  · intro a hge hsome hne
    simp [checkPaymentStatus, hHash, hStatus, Nat.not_lt.mpr hge, hsome, hne]
  · intro hge hsome
    simp [checkPaymentStatus, hHash, hStatus, Nat.not_lt.mpr hge, hsome]

/-- C5 witness: with expected recipient `0x9` and expected amount `100`
on a successful receipt — value `50` to the right address is
insufficient; value `100` with no target has no recipient; value `100` to
`0x8` is the wrong recipient; value `100` to `0x9` is paid. -/
theorem checkPaymentStatus_verdicts_witness :
    checkPaymentStatus 1 9 100 (.found { value := 50, toAddr := some 9 } false)
        (some { blockNumber := 3, gasUsed := 21000, status := 1 })
      = (OrderStatus.statusError, some "insufficient payment amount")
    ∧ checkPaymentStatus 1 9 100 (.found { value := 100, toAddr := none } false)
        (some { blockNumber := 3, gasUsed := 21000, status := 1 })
      = (OrderStatus.statusError, some "transaction is not a transfer to a valid address")
    ∧ checkPaymentStatus 1 9 100 (.found { value := 100, toAddr := some 8 } false)
        (some { blockNumber := 3, gasUsed := 21000, status := 1 })
      = (OrderStatus.statusError, some "transaction sent to wrong recipient address")
    ∧ checkPaymentStatus 1 9 100 (.found { value := 100, toAddr := some 9 } false)
        (some { blockNumber := 3, gasUsed := 21000, status := 1 })
      = (OrderStatus.statusPaid, none) :=
  ⟨(checkPaymentStatus_verdicts 1 9 100 _ _ (by decide) rfl).1 (by norm_num),
   (checkPaymentStatus_verdicts 1 9 100 _ _ (by decide) rfl).2.1 (by norm_num) rfl,
   (checkPaymentStatus_verdicts 1 9 100 _ _ (by decide) rfl).2.2.1 8 (by norm_num) rfl (by decide),
   (checkPaymentStatus_verdicts 1 9 100 _ _ (by decide) rfl).2.2.2 (by norm_num) rfl⟩

/-- C7.  `VerifyTransaction` on a transaction that is found but still
pending returns a `pending` verification with `success = false` and the
receipt fields (`blockNumber`, `gasUsed`) left at their zero values,
whatever the receipt RPC would answer (so no receipt lookup is
performed); and a mined transaction whose receipt status is not
`ReceiptStatusSuccessful` yields status `failed`. -/
theorem verifyTransaction_pending_and_failed (g : Gateway) (txHash : String)
    (hashVal : Nat) (tx : EthTx) (hHash : hashVal ≠ 0) :
    (∀ receiptLookup,
        verifyTransaction g txHash hashVal (.found tx true) receiptLookup
          = .ok { txHash := txHash, status := "pending", blockNumber := 0, gasUsed := 0,
                  success := false, isContractCall := false })
    ∧ (∀ receipt : Receipt, receipt.status ≠ receiptStatusSuccessful →
        verifyTransaction g txHash hashVal (.found tx false) (some receipt)
          = .ok { txHash := txHash, status := "failed", blockNumber := receipt.blockNumber,
                  gasUsed := receipt.gasUsed, success := false,
                  isContractCall := tx.toAddr = some g.contractAddress }) := by
  constructor
  · intro receiptLookup
    simp [verifyTransaction, hHash]
  · intro receipt hst
    simp [verifyTransaction, hHash, hst]

/-- C7 witness: a pending lookup returns the bare `pending` result for
two different receipt-RPC answers; a mined transaction with receipt
status `0` is `failed`. -/
theorem verifyTransaction_pending_and_failed_witness :
    verifyTransaction { contractAddress := 0x2 } "0xcc" 3
        (.found { value := 0, toAddr := some 0x2 } true) none
      = .ok { txHash := "0xcc", status := "pending", blockNumber := 0, gasUsed := 0,
              success := false, isContractCall := false }
    ∧ verifyTransaction { contractAddress := 0x2 } "0xcc" 3
        (.found { value := 0, toAddr := some 0x2 } true)
        (some { blockNumber := 7, gasUsed := 5, status := 1 })
      = .ok { txHash := "0xcc", status := "pending", blockNumber := 0, gasUsed := 0,
              success := false, isContractCall := false }
    ∧ verifyTransaction { contractAddress := 0x2 } "0xcc" 3
        (.found { value := 0, toAddr := some 0x2 } false)
        (some { blockNumber := 7, gasUsed := 5, status := 0 })
      = .ok { txHash := "0xcc", status := "failed", blockNumber := 7, gasUsed := 5,
              success := false, isContractCall := true } := by
  refine ⟨?_, ?_, ?_⟩
  · exact (verifyTransaction_pending_and_failed _ _ _ _ (by decide)).1 none
  · exact (verifyTransaction_pending_and_failed _ _ _ _ (by decide)).1 _
  · have h := (verifyTransaction_pending_and_failed { contractAddress := 0x2 } "0xcc" 3
      { value := 0, toAddr := some 0x2 } (by decide)).2
      { blockNumber := 7, gasUsed := 5, status := 0 } (by decide)
    simpa using h

/-- C8.  `handleEvent` maps each of the five event kinds to its fixed
downstream path with a payload holding exactly the fields relevant to
that kind, and every `price_wei` entry is the string obtained from the
event's arbitrary-precision price — for a present price, its decimal
rendering — never a JSON number. -/
theorem handleEvent_endpoint_payload (e : ContractEvent) :
    (e.type = EventType.itemListed →
      handleEventRoute e = ("/api/v1/blockchain/item-listed",
        [("chain_item_id", .num e.itemId), ("token_id", .num e.tokenId),
         ("title", .str e.title), ("price_wei", .str (priceString e.price)),
         ("explanation", .str e.explanation), ("image_url", .str e.imageUrl),
         ("uid", .str e.uid), ("category", .str e.category),
         ("seller", .str (addressHex e.seller)), ("created_at", .num e.createdAt),
         ("tx_hash", .str e.txHash)]))
    ∧ (e.type = EventType.itemPurchased →
        handleEventRoute e = ("/api/v1/blockchain/item-purchased",
          [("chain_item_id", .num e.itemId), ("buyer", .str (addressHex e.buyer)),
           ("price_wei", .str (priceString e.price)), ("token_id", .num e.tokenId),
           ("tx_hash", .str e.txHash)]))
    ∧ (e.type = EventType.itemUpdated →
        handleEventRoute e = ("/api/v1/blockchain/item-updated",
          [("chain_item_id", .num e.itemId), ("title", .str e.title),
           ("price_wei", .str (priceString e.price)), ("explanation", .str e.explanation),
           ("image_url", .str e.imageUrl), ("category", .str e.category),
           ("updated_at", .num e.updatedAt), ("tx_hash", .str e.txHash)]))
    ∧ (e.type = EventType.itemCancelled →
        handleEventRoute e = ("/api/v1/blockchain/item-cancelled",
          [("chain_item_id", .num e.itemId), ("seller", .str (addressHex e.seller)),
           ("tx_hash", .str e.txHash)]))
    ∧ (e.type = EventType.receiptConfirmed →
        handleEventRoute e = ("/api/v1/blockchain/receipt-confirmed",
          [("chain_item_id", .num e.itemId), ("buyer", .str (addressHex e.buyer)),
           ("seller", .str (addressHex e.seller)), ("price_wei", .str (priceString e.price)),
           ("tx_hash", .str e.txHash)]))
    ∧ (∀ p : Nat, priceString (some p) = Nat.repr p) := by
  refine ⟨?_, ?_, ?_, ?_, ?_, fun p => rfl⟩ <;>
    · intro h
      simp [handleEventRoute, h]

/-- C8 witness: the synthetic `ItemListed` event of the specification's
end-to-end scenario (item 7, token 3, price 10^15 wei) goes to the
item-listed path with `price_wei = "1000000000000000"`, and one concrete
event of each remaining kind goes to its own path. -/
theorem handleEvent_endpoint_payload_witness :
    handleEventRoute
        { type := EventType.itemListed, txHash := "0xt1", blockNo := 1, itemId := 7,
          tokenId := 3, title := "Widget", price := some 1000000000000000,
          uid := "u1", seller := 0xabc }
      = ("/api/v1/blockchain/item-listed",
         [("chain_item_id", .num 7), ("token_id", .num 3), ("title", .str "Widget"),
          ("price_wei", .str "1000000000000000"), ("explanation", .str ""),
          ("image_url", .str ""), ("uid", .str "u1"), ("category", .str ""),
          ("seller", .str (addressHex 0xabc)), ("created_at", .num 0),
          ("tx_hash", .str "0xt1")])
    ∧ (handleEventRoute
        { type := EventType.itemPurchased, txHash := "0xt2", blockNo := 2, itemId := 8,
          price := some 5 }).1 = "/api/v1/blockchain/item-purchased"
    ∧ (handleEventRoute
        { type := EventType.itemUpdated, txHash := "0xt3", blockNo := 3, itemId := 9,
          price := some 6 }).1 = "/api/v1/blockchain/item-updated"
    ∧ (handleEventRoute
        { type := EventType.itemCancelled, txHash := "0xt4", blockNo := 4,
          itemId := 10 }).1 = "/api/v1/blockchain/item-cancelled"
    ∧ (handleEventRoute
        { type := EventType.receiptConfirmed, txHash := "0xt5", blockNo := 5,
          itemId := 11, price := some 7 }).1 = "/api/v1/blockchain/receipt-confirmed" := by
  refine ⟨?_, ?_, ?_, ?_, ?_⟩
  · exact (handleEvent_endpoint_payload _).1 rfl
  · rw [(handleEvent_endpoint_payload _).2.1 rfl]
  · rw [(handleEvent_endpoint_payload _).2.2.1 rfl]
  · rw [(handleEvent_endpoint_payload _).2.2.2.1 rfl]
  · rw [(handleEvent_endpoint_payload _).2.2.2.2.1 rfl]

lemma pollRun_nil (last : Nat) : pollRun last [] = ([], last) := rfl

lemma pollRun_cons (last : Nat) (inp : TickInput) (rest : List TickInput) :
    pollRun last (inp :: rest)
      = match pollTick last inp with
        | (last2, .terminated) => ([], last2)
        | (last2, .idle) => pollRun last2 rest
        | (last2, .fetchFailed r) =>
          let tail := pollRun last2 rest
          (r :: tail.1, tail.2)
        | (last2, .fetched r _) =>
          let tail := pollRun last2 rest
          (r :: tail.1, tail.2) := rfl

lemma pollTick_terminated_eq (last : Nat) (inp : TickInput)
    (hh : inp.headerResult = none) : pollTick last inp = (last, TickOutcome.terminated) := by
  unfold pollTick
  rw [hh]

lemma pollTick_idle_eq (last : Nat) (inp : TickInput) (cur : Nat)
    (hh : inp.headerResult = some cur) (hc : cur ≤ last) :
    pollTick last inp = (last, TickOutcome.idle) := by
  unfold pollTick
  rw [hh]
  simp [hc]

lemma pollTick_fetchFailed_eq (last : Nat) (inp : TickInput) (cur : Nat)
    (hh : inp.headerResult = some cur) (hc : last < cur) (hl : inp.logsResult = none) :
    pollTick last inp = (cur, TickOutcome.fetchFailed (last + 1, cur)) := by
  unfold pollTick
  rw [hh]
  simp [Nat.not_le.mpr hc, hl]

lemma pollTick_fetched_eq (last : Nat) (inp : TickInput) (cur : Nat) (logs : List Log)
    (hh : inp.headerResult = some cur) (hc : last < cur) (hl : inp.logsResult = some logs) :
    pollTick last inp = (cur, TickOutcome.fetched (last + 1, cur) logs) := by
  unfold pollTick
  rw [hh]
  simp [Nat.not_le.mpr hc, hl]

lemma pollRun_mem_range (inputs : List TickInput) : ∀ last : Nat,
    ∀ r ∈ (pollRun last inputs).1, last + 1 ≤ r.1 ∧ r.1 ≤ r.2 := by
  induction inputs with
  | nil =>
    intro last r hr
    simp [pollRun_nil] at hr
  | cons inp rest ih =>
    intro last r hr
    rw [pollRun_cons] at hr
    rcases hh : inp.headerResult with _ | cur
    · rw [pollTick_terminated_eq last inp hh] at hr
      simp at hr
    · by_cases hc : cur ≤ last
      · rw [pollTick_idle_eq last inp cur hh hc] at hr
        exact ih last r hr
      · push_neg at hc
        rcases hl : inp.logsResult with _ | logs
        · rw [pollTick_fetchFailed_eq last inp cur hh hc hl] at hr
          simp only [List.mem_cons] at hr
          rcases hr with hr | hr
          · subst hr
            exact ⟨le_refl _, by omega⟩
          · have h := ih cur r hr
            exact ⟨by omega, h.2⟩
        · rw [pollTick_fetched_eq last inp cur logs hh hc hl] at hr
          simp only [List.mem_cons] at hr
          rcases hr with hr | hr
          · subst hr
            exact ⟨le_refl _, by omega⟩
          · have h := ih cur r hr
            exact ⟨by omega, h.2⟩

lemma pollRun_pairwise (inputs : List TickInput) : ∀ last : Nat,
    List.Pairwise (fun r1 r2 => r1.2 < r2.1) (pollRun last inputs).1 := by
  induction inputs with
  | nil =>
    intro last
    simp [pollRun_nil]
  | cons inp rest ih =>
    intro last
    rw [pollRun_cons]
    rcases hh : inp.headerResult with _ | cur
    · rw [pollTick_terminated_eq last inp hh]
      simp
    · by_cases hc : cur ≤ last
      · rw [pollTick_idle_eq last inp cur hh hc]
        exact ih last
      · push_neg at hc
        rcases hl : inp.logsResult with _ | logs
        · rw [pollTick_fetchFailed_eq last inp cur hh hc hl]
          refine List.Pairwise.cons ?_ (ih cur)
          intro r hr
          have h := pollRun_mem_range rest cur r hr
          show cur < r.1
          omega
        · rw [pollTick_fetched_eq last inp cur logs hh hc hl]
          refine List.Pairwise.cons ?_ (ih cur)
          intro r hr
          have h := pollRun_mem_range rest cur r hr
          show cur < r.1
          omega

/-- C9.  The polling fallback loop: the `lastProcessedBlock` cursor never
decreases on any tick; whenever the head is beyond the cursor the loop
fetches exactly the range `[cursor + 1, head]` — advancing the cursor to
the head even when the log fetch errors, so the gap is bridged; every
range a run ever fetches starts above its starting cursor; and the ranges
of a run are pairwise increasing (each starts after the previous one
ends), so no block already advanced past is ever fetched — hence never
re-delivered — again. -/
theorem pollEvents_cursor_invariants :
    (∀ last inp, last ≤ (pollTick last inp).1)
    ∧ (∀ last cur, last < cur →
        pollTick last { headerResult := some cur, logsResult := none }
          = (cur, TickOutcome.fetchFailed (last + 1, cur)))
    ∧ (∀ last cur logs, last < cur →
        pollTick last { headerResult := some cur, logsResult := some logs }
          = (cur, TickOutcome.fetched (last + 1, cur) logs))
    ∧ (∀ last inputs, ∀ r ∈ (pollRun last inputs).1, last + 1 ≤ r.1 ∧ r.1 ≤ r.2)
    ∧ (∀ last inputs, List.Pairwise (fun r1 r2 => r1.2 < r2.1) (pollRun last inputs).1) := by
  refine ⟨?_, ?_, ?_, ?_, ?_⟩
  · intro last inp
    unfold pollTick
    rcases hh : inp.headerResult with _ | cur
    · simp
    · by_cases hc : cur ≤ last
      · simp [hc]
      · rcases hl : inp.logsResult with _ | logs <;> simp [hc] <;> omega
  · intro last cur h
    exact pollTick_fetchFailed_eq last _ cur rfl h rfl
  · intro last cur logs h
    exact pollTick_fetched_eq last _ cur logs rfl h rfl
  · intro last inputs
    exact pollRun_mem_range inputs last
  · intro last inputs
    exact pollRun_pairwise inputs last

/-- C9 witness: from cursor 10, a failing fetch at head 15 still advances
the cursor and targets blocks 11–15; a successful fetch behaves the same;
and the two ranges of a concrete two-tick run never overlap. -/
theorem pollEvents_cursor_invariants_witness :
    pollTick 10 { headerResult := some 15, logsResult := none }
      = (15, TickOutcome.fetchFailed (11, 15))
    ∧ pollTick 10 { headerResult := some 15, logsResult := some [] }
      = (15, TickOutcome.fetched (11, 15) [])
    ∧ List.Pairwise (fun r1 r2 => r1.2 < r2.1)
        (pollRun 10 [{ headerResult := some 15, logsResult := none },
                     { headerResult := some 20, logsResult := some [] }]).1 :=
  ⟨pollEvents_cursor_invariants.2.1 10 15 (by norm_num),
   pollEvents_cursor_invariants.2.2.1 10 15 [] (by norm_num),
   pollEvents_cursor_invariants.2.2.2.2 10 _⟩

end Onchain
